import Mathlib

/-!
# Verification of the function-health-exporter data pipeline

Shallow embedding of the client in src (FunctionHealthClient): the retry/backoff
executor (retryRequest), the session manager (login, refreshTokenIfNeeded), the
rate-limited request gateway (makeRequest), the data aggregator (fetchAllData,
fetchIndividualBiomarkers) and the export writer (exportData), together with
theorems settling the frozen claims about them.

Network effects are made explicit: every remote endpoint is an oracle mapping the
attempt index to an outcome (a transport-level rejection, or a resolved HTTP
response carrying a status code and an optional parsed JSON body; a missing body
models a response whose json() call rejects).  Timers (rate-limit delay, backoff
delay, inter-item pause) are recorded as data where a claim mentions them and are
otherwise irrelevant to the computed values.  The millisecond clock is an explicit
parameter: login and each request take the instant at which they run.
-/

namespace FunctionHealth

/-- Runtime JSON values as produced by response.json() (JS values; numbers are
modelled as integers, which covers every value the claims touch). -/
inductive Jx where
  | null
  | bool (b : Bool)
  | num (n : Int)
  | str (s : String)
  | arr (xs : List Jx)
  | obj (fields : List (String × Jx))

/-- JS truthiness of a JSON value (null, false, 0 and the empty string are falsy;
arrays and objects are always truthy). -/
def jsTruthy : Jx → Bool
  | .null => false
  | .bool b => b
  | .num n => n != 0
  | .str s => s != ""
  | .arr _ => true
  | .obj _ => true

/-- Property access o[k] on a JS value: a field of an object, undefined (none)
otherwise. -/
def jxGet (j : Jx) (k : String) : Option Jx :=
  match j with
  | .obj fields => fields.lookup k
  | _ => none

/-- JS String(v) conversion for the values that can appear in a template literal. -/
def jxToString : Jx → String
  | .null => "null"
  | .bool b => if b then "true" else "false"
  | .num n => toString n
  | .str s => s
  | .arr xs => String.intercalate "," (xs.attach.map (fun p => jxToString p.1))
  | .obj _ => "[object Object]"
decreasing_by
  have := List.sizeOf_lt_of_mem p.2
  simp only [Jx.arr.sizeOf_spec]
  omega

/-- Test for the JS null value (the section-skip test of exportData compares
against null/undefined). -/
def Jx.isNull : Jx → Bool
  | .null => true
  | _ => false

/-- Numeric value of a run of decimal digits. -/
def digitsToNat (cs : List Char) : Nat :=
  cs.foldl (fun acc c => acc * 10 + (c.toNat - 48)) 0

/-- JS parseInt with radix 10 on a string: skip leading whitespace, optional
sign, longest run of decimal digits; none models NaN. -/
def parseIntDec (s : String) : Option Int :=
  let cs := s.toList.dropWhile (fun c => c = ' ' || c = '\t' || c = '\n' || c = '\r')
  let signed : Int × List Char :=
    match cs with
    | '-' :: r => (-1, r)
    | '+' :: r => (1, r)
    | r => (1, r)
  let ds := signed.2.takeWhile Char.isDigit
  if ds.isEmpty then none
  else some (signed.1 * (digitsToNat ds : Int))

/-! ## Data model of the aggregator (the TS interfaces the client declares) -/

/-- One sex-scoped detail variant of a biomarker (interface SexDetails). -/
structure SexDetails where
  id : String
  sex : String
  oneLineDescription : String
  optimalRangeHigh : String
  optimalRangeLow : String
  questRefRangeHigh : String
  questRefRangeLow : String

/-- One category reference inside a biomarker (the element type of
Biomarker.categories). -/
structure BiomarkerCategory where
  id : String
  categoryName : String

/-- A biomarker catalog entry (interface Biomarker). -/
structure Biomarker where
  id : String
  name : String
  questBiomarkerCode : String
  categories : List BiomarkerCategory
  sexDetails : List SexDetails
  status : Option String

/-- One per-biomarker detail record (interface IndividualBiomarkerData). -/
structure IndividualBiomarkerData where
  id : String
  name : String
  oneLineDescription : String
  whyItMatters : String
  recommendations : String
  causesDescription : String
  symptomsDescription : String
  foodsToEatDescription : String
  foodsToAvoidDescription : String
  supplementsDescription : String
  selfCareDescription : String
  additionalTestsDescription : String
  followUpDescription : String
  resourcesCited : String
  sexFilter : String
  fullData : Option Jx

/-- The aggregate result (interface UserData).  Field types follow the runtime
values the tasks actually store: profile, settings, inviteCode, biologicalAge,
bmi, myStory hold a JSON value or null; reports is declared as a list in the TS
interface but its task stores the scalar results-report payload (or null), so it
holds an arbitrary JSON value, initialized to the empty array; list-typed tasks
always store a (possibly empty) array; biomarkers is the decoded catalog. -/
structure UserData where
  profile : Jx
  settings : Jx
  results : List Jx
  biomarkers : List Biomarker
  categories : List Jx
  recommendations : List Jx
  reports : Jx
  biologicalAge : Jx
  bmi : Jx
  notes : List Jx
  notifications : List Jx
  cards : List Jx
  codes : List Jx
  inviteCode : Jx
  requisitions : List Jx
  pendingSchedules : List Jx
  smartAddons : List Jx
  myStory : Jx
  biomarkerDetails : List Jx
  individualBiomarkers : List IndividualBiomarkerData

/-- The initializer of userData in fetchAllData (lines declaring the placeholder
for every key: null for scalar keys, the empty array for list keys, including
the empty array initially stored under reports). -/
def initialUserData : UserData :=
  { profile := .null, settings := .null, results := [], biomarkers := [],
    categories := [], recommendations := [], reports := .arr [],
    biologicalAge := .null, bmi := .null, notes := [], notifications := [],
    cards := [], codes := [], inviteCode := .null, requisitions := [],
    pendingSchedules := [], smartAddons := [], myStory := .null,
    biomarkerDetails := [], individualBiomarkers := [] }

/-! ## Retry/Backoff Executor (retryRequest)

The loop `for (let i = 0; i < attempts; i++)` with an exponential delay
`retryDelay * 2^i` awaited before every attempt with i > 0.  The trace records
the result, how many times the operation was invoked and the forced waits in
order.  An operation is a map from the attempt index to a thrown error (the
error message) or a returned value. -/

/-- Observable trace of one run of retryRequest. -/
structure RetryTrace (α : Type) where
  result : Except String α
  calls : Nat
  waits : List Nat

/-- The retry loop body.  The loop `for (let i = 0; i < attempts; i++)` is run
with remaining = attempts - i iterations left, at loop index i, with the
invocation count and the forced waits accumulated so far; `remaining = 0` is the
loop falling through (the dead `throw new Error("All retry attempts failed")`
after the loop), and the `i === attempts - 1` rethrow test is `remaining = 1`. -/
def retryAux {α : Type} (b : Nat) (op : Nat → Except String α) :
    Nat → Nat → Nat → List Nat → RetryTrace α
  | 0, _, calls, waits => ⟨.error "All retry attempts failed", calls, waits⟩
  | remaining + 1, i, calls, waits =>
    let waits2 := if 0 < i then waits ++ [b * 2 ^ i] else waits
    match op i with
    | .ok v => ⟨.ok v, calls + 1, waits2⟩
    | .error e =>
      if remaining = 0 then ⟨.error e, calls + 1, waits2⟩
      else retryAux b op remaining (i + 1) (calls + 1) waits2

/-- retryRequest(requestFn, attempts) with baseDelayMs b: run the loop from
attempt index 0 with nothing accumulated. -/
def retryRun {α : Type} (b : Nat) (attempts : Nat) (op : Nat → Except String α) :
    RetryTrace α :=
  retryAux b op attempts 0 0 []

/-- Modelled from the spec: the spec's RetryExhaustedError wrapper around the
last underlying failure.  No such wrapper type exists anywhere in the source
(retryRequest rethrows the caught error object unchanged), so the wrapped form
is modelled as a tagged message, distinct from every raw message. -/
def retryExhaustedWrap (e : String) : String :=
  "RetryExhaustedError: " ++ e

/-! ## Session/Token Manager and Rate-Limited Request Gateway -/

/-- The configuration fields the client reads (src config.ts Config, restricted
to the fields FunctionHealthClient consults). -/
structure Config where
  retryAttempts : Nat
  retryDelay : Nat
  rateLimit : Nat
  tokenRefreshBuffer : Int
  maxIndividualBiomarkers : Nat

/-- AuthTokens as stored in this.tokens.  expiresIn is Option Int because it is
produced by parseInt, whose NaN is modelled as none; loginTime is the epoch
millisecond instant recorded at login or refresh. -/
structure AuthTokens where
  idToken : String
  refreshToken : String
  expiresIn : Option Int
  localId : String
  email : String
  loginTime : Int

/-- Outcome of one attempted HTTP data fetch: the promise rejects at transport
level (thrown, so the retry executor retries it), or resolves with a status code
and an optional parsed JSON body (none models a body whose response.json()
rejects). -/
inductive FetchOutcome where
  | transportError (msg : String)
  | response (status : Nat) (body : Option Jx)

/-- Parsed body of a successful token-refresh response (the two fields the
client reads). -/
structure RefreshBody where
  access_token : String
  expires_in : String

/-- Outcome of one attempted token-refresh HTTP call. -/
inductive RefreshOutcome where
  | transportError (msg : String)
  | response (status : Nat) (body : Option RefreshBody)

/-- Parsed body of a login response (the fields the client reads; a JS-missing
or empty string field is "", which is exactly the falsy case the code tests). -/
structure LoginBody where
  idToken : String
  refreshToken : String
  expiresIn : String
  localId : String
  email : String

/-- Outcome of one attempted login HTTP call. -/
inductive LoginOutcome where
  | transportError (msg : String)
  | response (status : Nat) (body : Option LoginBody)

/-- response.ok of the fetch API: status in the 2xx range. -/
def respOk (status : Nat) : Bool :=
  200 ≤ status && status < 300

/-- The staleness test of refreshTokenIfNeeded: tokenAge = (now - loginTime) /
1000 seconds (exact real division in JS), compared against expiresIn -
tokenRefreshBuffer.  Scaling both sides by 1000 gives the equivalent integer
comparison below.  A NaN expiresIn (none) makes the JS comparison false. -/
def tokenStale (cfg : Config) (now : Int) (t : AuthTokens) : Bool :=
  match t.expiresIn with
  | none => false
  | some e => decide (now - t.loginTime > 1000 * (e - cfg.tokenRefreshBuffer))

/-- A refresh attempt as an operation for the retry executor. -/
def refreshOp (roracle : Nat → RefreshOutcome) (i : Nat) :
    Except String (Nat × Option RefreshBody) :=
  match roracle i with
  | .transportError m => .error m
  | .response s b => .ok (s, b)

/-- Result of refreshTokenIfNeeded together with the number of refresh HTTP
invocations it performed. -/
structure RefreshTrace where
  result : Except String AuthTokens
  refreshCalls : Nat

/-- refreshTokenIfNeeded: throw if not authenticated; if the token is stale,
refresh through the retry executor, replacing idToken / expiresIn / loginTime on
a 2xx response and rethrowing every failure (non-2xx status, exhausted retries,
body parse rejection); otherwise do nothing. -/
def refreshTokenIfNeeded (cfg : Config) (roracle : Nat → RefreshOutcome)
    (now : Int) (tokens : Option AuthTokens) : RefreshTrace :=
  match tokens with
  | none => ⟨.error "Not authenticated - call login() first", 0⟩
  | some t =>
    if tokenStale cfg now t then
      let rt := retryRun cfg.retryDelay cfg.retryAttempts (refreshOp roracle)
      match rt.result with
      | .error e => ⟨.error e, rt.calls⟩
      | .ok (status, body) =>
        if respOk status then
          match body with
          | none => ⟨.error "Token refresh response parse failed", rt.calls⟩
          | some d =>
            ⟨.ok { t with idToken := d.access_token,
                          expiresIn := parseIntDec d.expires_in,
                          loginTime := now }, rt.calls⟩
        else ⟨.error ("Token refresh failed: " ++ toString status), rt.calls⟩
    else ⟨.ok t, 0⟩

/-- Error messages of the status classification in makeRequest. -/
def authExpiredMsg : String := "Authentication expired. Please log in again."

def rateLimitedMsg : String := "Rate limit exceeded. Please try again later."

def serverErrorMsg (status : Nat) : String :=
  "Server error: " ++ toString status

def jsonParseFailedMsg : String := "Response body is not valid JSON"

/-- The status ladder of makeRequest for a non-ok response: 401 and 429 and
status at least 500 throw, every other status falls through to return null. -/
def classifyStatus (status : Nat) : Except String Unit :=
  if status = 401 then .error authExpiredMsg
  else if status = 429 then .error rateLimitedMsg
  else if 500 ≤ status then .error (serverErrorMsg status)
  else .ok ()

/-- A data-fetch attempt as an operation for the retry executor (the retry
executor retries only rejected promises; a resolved response of any status is a
success for it). -/
def fetchOp (oracle : Nat → FetchOutcome) (i : Nat) :
    Except String (Nat × Option Jx) :=
  match oracle i with
  | .transportError m => .error m
  | .response s b => .ok (s, b)

/-- The body of makeRequest's try block, after the retried fetch settled: not-ok
statuses go through the status ladder (throwing or returning null), ok statuses
parse the body (a rejecting json() throws).  The value null is Jx.null. -/
def makeRequestTry (retried : Except String (Nat × Option Jx)) :
    Except String Jx :=
  match retried with
  | .error e => .error e
  | .ok (status, body) =>
    if respOk status then
      match body with
      | some j => .ok j
      | none => .error jsonParseFailedMsg
    else
      match classifyStatus status with
      | .error e => .error e
      | .ok _ => .ok .null

/-- Observable trace of one makeRequest call: its returned value or propagated
error, how many data-fetch and refresh HTTP invocations were made, the token
state afterwards (refresh mutates this.tokens in place), the bearer token
attached to the request (if the request stage was reached), and the error that
the try block raised and the catch converted to a null return, if any (the code
logs it via logger.error). -/
structure MkReqTrace where
  result : Except String Jx
  httpCalls : Nat
  refreshCalls : Nat
  tokens : Option AuthTokens
  bearer : Option String
  caught : Option String

/-- makeRequest: refreshTokenIfNeeded runs before the try block, so its errors
(absent session, failed refresh) propagate to the caller; inside the try block
the rate-limited fetch runs under the retry executor and every error raised
there - exhausted transport retries, the 401/429/5xx status ladder, a body
parse rejection - is caught and converted to a null return. -/
def makeRequest (cfg : Config) (roracle : Nat → RefreshOutcome)
    (oracle : String → Nat → FetchOutcome) (endpoint : String) (now : Int)
    (tokens : Option AuthTokens) : MkReqTrace :=
  let rt := refreshTokenIfNeeded cfg roracle now tokens
  match rt.result with
  | .error e => ⟨.error e, 0, rt.refreshCalls, tokens, none, none⟩
  | .ok t =>
    let ft := retryRun cfg.retryDelay cfg.retryAttempts (fetchOp (oracle endpoint))
    match makeRequestTry ft.result with
    | .ok v => ⟨.ok v, ft.calls, rt.refreshCalls, some t, some t.idToken, none⟩
    | .error e => ⟨.ok .null, ft.calls, rt.refreshCalls, some t, some t.idToken, some e⟩

/-- A login attempt as an operation for the retry executor. -/
def loginOp (oracle : Nat → LoginOutcome) (i : Nat) :
    Except String (Nat × Option LoginBody) :=
  match oracle i with
  | .transportError m => .error m
  | .response s b => .ok (s, b)

/-- login(email, password): fetch through the retry executor; a non-ok status
throws, a body missing (JS-falsy) idToken or refreshToken throws, and otherwise
the session is stored with expiresIn = parseInt(String(data.expiresIn)) and
loginTime = Date.now() (the now argument). -/
def login (cfg : Config) (oracle : Nat → LoginOutcome) (now : Int) :
    Except String AuthTokens :=
  match (retryRun cfg.retryDelay cfg.retryAttempts (loginOp oracle)).result with
  | .error e => .error e
  | .ok (status, body) =>
    if respOk status then
      match body with
      | none => .error "Login response parse failed"
      | some d =>
        if d.idToken = "" || d.refreshToken = "" then
          .error "Invalid login response - missing authentication tokens"
        else
          .ok { idToken := d.idToken, refreshToken := d.refreshToken,
                expiresIn := parseIntDec d.expiresIn, localId := d.localId,
                email := d.email, loginTime := now }
    else .error ("Login failed: " ++ toString status)

/-! ## Data Aggregator (fetchAllData and the per-endpoint fetchers) -/

/-- The run environment of one extraction: configuration, the refresh-endpoint
oracle, the per-endpoint data oracle (endpoint path, then attempt index), and
the instant at which the run executes. -/
structure Env where
  cfg : Config
  roracle : Nat → RefreshOutcome
  oracle : String → Nat → FetchOutcome
  now : Int

/-- One makeRequest call as the fetchers see it: the returned value or thrown
error, and the token state afterwards. -/
def getJson (env : Env) (ep : String) (tk : Option AuthTokens) :
    Except String Jx × Option AuthTokens :=
  let m := makeRequest env.cfg env.roracle env.oracle ep env.now tk
  (m.result, m.tokens)

/-- The Array.isArray(result) ? result : [] pattern of the list fetchers. -/
def asList : Jx → List Jx
  | .arr xs => xs
  | _ => []

/-- A string field of a decoded JSON object, "" when absent or not a string. -/
def jxStrField (j : Jx) (k : String) : String :=
  match jxGet j k with
  | some (.str s) => s
  | _ => ""

/-- View of a raw JSON catalog entry as the TS cast `result as Biomarker[]`
reads it: the fields the client subsequently accesses, for the
schema-conformant payloads the deployed API returns. -/
def jxAsSexDetails (j : Jx) : SexDetails :=
  ⟨jxStrField j "id", jxStrField j "sex", jxStrField j "oneLineDescription",
   jxStrField j "optimalRangeHigh", jxStrField j "optimalRangeLow",
   jxStrField j "questRefRangeHigh", jxStrField j "questRefRangeLow"⟩

def jxAsBiomarker (j : Jx) : Biomarker :=
  ⟨jxStrField j "id", jxStrField j "name", jxStrField j "questBiomarkerCode",
   (match jxGet j "categories" with
    | some (.arr xs) => xs.map (fun c => ⟨jxStrField c "id", jxStrField c "categoryName"⟩)
    | _ => []),
   (match jxGet j "sexDetails" with
    | some (.arr xs) => xs.map jxAsSexDetails
    | _ => []),
   (match jxGet j "status" with
    | some (.str s) => some s
    | _ => none)⟩

/-- fetchUserProfile: `result ? result : null`. -/
def fetchUserProfile (env : Env) (tk : Option AuthTokens) :
    Except String Jx × Option AuthTokens :=
  let (r, tk2) := getJson env "/user" tk
  (r.map (fun j => if jsTruthy j then j else .null), tk2)

/-- fetchUserSettings returns the makeRequest value unchanged. -/
def fetchUserSettings (env : Env) (tk : Option AuthTokens) :
    Except String Jx × Option AuthTokens :=
  getJson env "/user/settings" tk

/-- The shared shape of the list endpoints: Array.isArray(result) ? result : []. -/
def fetchListEndpoint (env : Env) (ep : String) (tk : Option AuthTokens) :
    Except String (List Jx) × Option AuthTokens :=
  let (r, tk2) := getJson env ep tk
  (r.map asList, tk2)

def fetchResults (env : Env) (tk : Option AuthTokens) :
    Except String (List Jx) × Option AuthTokens :=
  fetchListEndpoint env "/results" tk

/-- fetchBiomarkers: the list endpoint /biomarkers, whose elements the client
casts to Biomarker. -/
def fetchBiomarkers (env : Env) (tk : Option AuthTokens) :
    Except String (List Biomarker) × Option AuthTokens :=
  let (r, tk2) := getJson env "/biomarkers" tk
  (r.map (fun j => (asList j).map jxAsBiomarker), tk2)

def fetchCategories (env : Env) (tk : Option AuthTokens) :
    Except String (List Jx) × Option AuthTokens :=
  fetchListEndpoint env "/categories" tk

def fetchRecommendations (env : Env) (tk : Option AuthTokens) :
    Except String (List Jx) × Option AuthTokens :=
  fetchListEndpoint env "/recommendations" tk

def fetchResultsReport (env : Env) (tk : Option AuthTokens) :
    Except String Jx × Option AuthTokens :=
  getJson env "/results-report" tk

def fetchBiologicalAge (env : Env) (tk : Option AuthTokens) :
    Except String Jx × Option AuthTokens :=
  getJson env "/biological-calculations/biological-age" tk

/-- fetchBMI first fetches /results; when the list is non-empty and its head
has a truthy requisition_id, the BMI endpoint is parameterized with it
(stringified as in the template literal), otherwise the plain BMI endpoint is
called. -/
def fetchBMI (env : Env) (tk : Option AuthTokens) :
    Except String Jx × Option AuthTokens :=
  let (r, tk2) := fetchResults env tk
  match r with
  | .error e => (.error e, tk2)
  | .ok results =>
    match results with
    | [] => getJson env "/biological-calculations/bmi" tk2
    | first :: _ =>
      match jxGet first "requisition_id" with
      | some v =>
        if jsTruthy v then
          getJson env ("/biological-calculations/bmi?requisition_id=" ++ jxToString v) tk2
        else getJson env "/biological-calculations/bmi" tk2
      | none => getJson env "/biological-calculations/bmi" tk2

def fetchNotes (env : Env) (tk : Option AuthTokens) :
    Except String (List Jx) × Option AuthTokens :=
  fetchListEndpoint env "/notes" tk

def fetchNotifications (env : Env) (tk : Option AuthTokens) :
    Except String (List Jx) × Option AuthTokens :=
  fetchListEndpoint env "/notifications" tk

def fetchUserCards (env : Env) (tk : Option AuthTokens) :
    Except String (List Jx) × Option AuthTokens :=
  fetchListEndpoint env "/user/cards" tk

def fetchUserCodes (env : Env) (tk : Option AuthTokens) :
    Except String (List Jx) × Option AuthTokens :=
  fetchListEndpoint env "/user/codes" tk

def fetchInviteCode (env : Env) (tk : Option AuthTokens) :
    Except String Jx × Option AuthTokens :=
  getJson env "/user/invite-code" tk

/-- fetchRequisitions: the pending and the completed lists, concatenated. -/
def fetchRequisitions (env : Env) (tk : Option AuthTokens) :
    Except String (List Jx) × Option AuthTokens :=
  let (p, tk2) := getJson env "/requisitions?pending=true" tk
  match p with
  | .error e => (.error e, tk2)
  | .ok pv =>
    let (c, tk3) := getJson env "/requisitions?pending=false" tk2
    match c with
    | .error e => (.error e, tk3)
    | .ok cv => (.ok (asList pv ++ asList cv), tk3)

def fetchPendingSchedules (env : Env) (tk : Option AuthTokens) :
    Except String (List Jx) × Option AuthTokens :=
  fetchListEndpoint env "/pending-schedules" tk

def fetchSmartAddons (env : Env) (tk : Option AuthTokens) :
    Except String (List Jx) × Option AuthTokens :=
  fetchListEndpoint env "/smart-addons" tk

def fetchMyStory (env : Env) (tk : Option AuthTokens) :
    Except String Jx × Option AuthTokens :=
  getJson env "/my-function-story" tk

def fetchBiomarkerDetails (env : Env) (tk : Option AuthTokens) :
    Except String (List Jx) × Option AuthTokens :=
  fetchListEndpoint env "/biomarker-details" tk

/-- One catalog task of fetchAllData: run the task's fetch; on success assign
its value to the task's key; the per-task catch swallows every thrown error,
leaving the key as it was. -/
def taskStep {V : Type} (env : Env) (st : UserData × Option AuthTokens)
    (fetcher : Env → Option AuthTokens → Except String V × Option AuthTokens)
    (assign : UserData → V → UserData) : UserData × Option AuthTokens :=
  let (r, tk2) := fetcher env st.2
  match r with
  | .ok v => (assign st.1 v, tk2)
  | .error _ => (st.1, tk2)

/-- The main catalog of fetchAllData: the five sections' nineteen tasks in
declaration order, run strictly sequentially over the initialized userData. -/
def catalogPhase (env : Env) (tk : Option AuthTokens) :
    UserData × Option AuthTokens :=
  let s := (initialUserData, tk)
  let s := taskStep env s fetchUserProfile (fun u v => { u with profile := v })
  let s := taskStep env s fetchUserSettings (fun u v => { u with settings := v })
  let s := taskStep env s fetchInviteCode (fun u v => { u with inviteCode := v })
  let s := taskStep env s fetchUserCards (fun u v => { u with cards := v })
  let s := taskStep env s fetchUserCodes (fun u v => { u with codes := v })
  let s := taskStep env s fetchResults (fun u v => { u with results := v })
  let s := taskStep env s fetchBiomarkers (fun u v => { u with biomarkers := v })
  let s := taskStep env s fetchCategories (fun u v => { u with categories := v })
  let s := taskStep env s fetchBiomarkerDetails (fun u v => { u with biomarkerDetails := v })
  let s := taskStep env s fetchResultsReport (fun u v => { u with reports := v })
  let s := taskStep env s fetchRecommendations (fun u v => { u with recommendations := v })
  let s := taskStep env s fetchBiologicalAge (fun u v => { u with biologicalAge := v })
  let s := taskStep env s fetchBMI (fun u v => { u with bmi := v })
  let s := taskStep env s fetchMyStory (fun u v => { u with myStory := v })
  let s := taskStep env s fetchNotes (fun u v => { u with notes := v })
  let s := taskStep env s fetchNotifications (fun u v => { u with notifications := v })
  let s := taskStep env s fetchRequisitions (fun u v => { u with requisitions := v })
  let s := taskStep env s fetchPendingSchedules (fun u v => { u with pendingSchedules := v })
  taskStep env s fetchSmartAddons (fun u v => { u with smartAddons := v })

/-- The task names of the fixed catalog, in declaration order (the nineteen
task.name strings of the five sections). -/
def catalogTaskNames : List String :=
  ["profile", "settings", "inviteCode", "cards", "codes",
   "results", "biomarkers", "categories", "biomarkerDetails",
   "reports", "recommendations", "biologicalAge", "bmi", "myStory",
   "notes", "notifications",
   "requisitions", "pendingSchedules", "smartAddons"]

/-- The value stored under one key of the aggregate, as a dynamic lookup
(userData as any)[name]. -/
inductive SectionVal where
  | jval (v : Jx)
  | jlist (xs : List Jx)
  | blist (xs : List Biomarker)
  | iblist (xs : List IndividualBiomarkerData)

/-- Key lookup on the aggregate result: every declared key of the UserData
interface is present; any other name is absent. -/
def UserData.get (u : UserData) : String → Option SectionVal
  | "profile" => some (.jval u.profile)
  | "settings" => some (.jval u.settings)
  | "results" => some (.jlist u.results)
  | "biomarkers" => some (.blist u.biomarkers)
  | "categories" => some (.jlist u.categories)
  | "recommendations" => some (.jlist u.recommendations)
  | "reports" => some (.jval u.reports)
  | "biologicalAge" => some (.jval u.biologicalAge)
  | "bmi" => some (.jval u.bmi)
  | "notes" => some (.jlist u.notes)
  | "notifications" => some (.jlist u.notifications)
  | "cards" => some (.jlist u.cards)
  | "codes" => some (.jlist u.codes)
  | "inviteCode" => some (.jval u.inviteCode)
  | "requisitions" => some (.jlist u.requisitions)
  | "pendingSchedules" => some (.jlist u.pendingSchedules)
  | "smartAddons" => some (.jlist u.smartAddons)
  | "myStory" => some (.jval u.myStory)
  | "biomarkerDetails" => some (.jlist u.biomarkerDetails)
  | "individualBiomarkers" => some (.iblist u.individualBiomarkers)
  | _ => none

/-- The sex filter computed at the top of fetchIndividualBiomarkers from the
optional userSex argument: "Male" / "Female" on a case-insensitive match,
otherwise "All". -/
def resolveSexFilter (userSex : Option String) : String :=
  match userSex with
  | some s =>
    if s.toLower = "male" then "Male"
    else if s.toLower = "female" then "Female"
    else "All"
  | none => "All"

/-- The sexDetails variant selection of fetchIndividualBiomarkers: the first
variant whose sex equals the filter, else the first variant whose sex is "All",
else none. -/
def resolveSexDetailsId (b : Biomarker) (sexFilter : String) : Option String :=
  match b.sexDetails.find? (fun sd => sd.sex == sexFilter) with
  | some sd => some sd.id
  | none =>
    match b.sexDetails.find? (fun sd => sd.sex == "All") with
    | some sd => some sd.id
    | none => none

/-- The placeholder detail record pushed when no variant resolves or the detail
request returns a falsy value: the biomarker's id and name, every text field
the empty string, the lower-cased sex filter, and no full data. -/
def emptyIBD (b : Biomarker) (sexFilter : String) : IndividualBiomarkerData :=
  ⟨b.id, b.name, "", "", "", "", "", "", "", "", "", "", "", "",
   sexFilter.toLower, none⟩

/-- String(data.k || fallback): the stringified field when truthy, else the
fallback. -/
def jsStrOrDefault (d : Jx) (k : String) (fallback : String) : String :=
  match jxGet d k with
  | some v => if jsTruthy v then jxToString v else fallback
  | none => fallback

/-- The detail record built from a truthy detail payload. -/
def filledIBD (b : Biomarker) (sexFilter : String) (d : Jx) :
    IndividualBiomarkerData :=
  ⟨b.id, jsStrOrDefault d "name" b.name,
   jsStrOrDefault d "oneLineDescription" "",
   jsStrOrDefault d "whyItMatters" "",
   jsStrOrDefault d "recommendations" "",
   jsStrOrDefault d "causesDescription" "",
   jsStrOrDefault d "symptomsDescription" "",
   jsStrOrDefault d "foodsToEatDescription" "",
   jsStrOrDefault d "foodsToAvoidDescription" "",
   jsStrOrDefault d "supplementsDescription" "",
   jsStrOrDefault d "selfCareDescription" "",
   jsStrOrDefault d "additionalTestsDescription" "",
   jsStrOrDefault d "followUpDescription" "",
   jsStrOrDefault d "resourcesCited" "",
   sexFilter.toLower, some d⟩

/-- The loop of fetchIndividualBiomarkers, returning the detail records, the
token state afterwards, and the detail endpoints actually requested, in order.
Errors escaping a makeRequest there (absent session, failed refresh) are not
caught in this loop and abort it. -/
def fibAux (env : Env) (sexFilter : String) :
    List Biomarker → Option AuthTokens →
    Except String (List IndividualBiomarkerData × Option AuthTokens × List String)
  | [], tk => .ok ([], tk, [])
  | b :: rest, tk =>
    match resolveSexDetailsId b sexFilter with
    | none =>
      match fibAux env sexFilter rest tk with
      | .error e => .error e
      | .ok (items, tk2, reqs) => .ok (emptyIBD b sexFilter :: items, tk2, reqs)
    | some sid =>
      let ep := "/biomarker-data/" ++ sid
      let m := makeRequest env.cfg env.roracle env.oracle ep env.now tk
      match m.result with
      | .error e => .error e
      | .ok d =>
        let item := if jsTruthy d then filledIBD b sexFilter d else emptyIBD b sexFilter
        match fibAux env sexFilter rest m.tokens with
        | .error e => .error e
        | .ok (items, tk2, reqs) => .ok (item :: items, tk2, ep :: reqs)

/-- fetchIndividualBiomarkers(biomarkers, userSex). -/
def fetchIndividualBiomarkers (env : Env) (biomarkers : List Biomarker)
    (userSex : Option String) (tk : Option AuthTokens) :
    Except String (List IndividualBiomarkerData × Option AuthTokens × List String) :=
  fibAux env (resolveSexFilter userSex) biomarkers tk

/-- userData.profile?.biologicalSex || "all": the biologicalSex string of the
profile when present and truthy, else "all". -/
def userSexOf (profile : Jx) : String :=
  match jxGet profile "biologicalSex" with
  | some v => if jsTruthy v then jxToString v else "all"
  | none => "all"

/-- fetchAllData: run the catalog (every task failure contained by its own
catch), then, if biomarkers were retrieved, the per-biomarker detail phase over
the (optionally capped) catalog with the profile's sex; an error raised there
reaches the outer catch, which rethrows it. -/
def fetchAllData (env : Env) (tk : Option AuthTokens) : Except String UserData :=
  let s := catalogPhase env tk
  let u := s.1
  if 0 < u.biomarkers.length then
    let userSex := userSexOf u.profile
    let limited :=
      if 0 < env.cfg.maxIndividualBiomarkers then
        u.biomarkers.take env.cfg.maxIndividualBiomarkers
      else u.biomarkers
    if 0 < limited.length then
      match fetchIndividualBiomarkers env limited (some userSex) s.2 with
      | .error e => .error e
      | .ok (items, _, _) => .ok { u with individualBiomarkers := items }
    else .ok u
  else .ok u

/-! ## Export Writer (exportData) -/

/-- JSON encoding of a decoded catalog entry, for serialization in the export
files. -/
def biomarkerCategoryToJx (c : BiomarkerCategory) : Jx :=
  .obj [("id", .str c.id), ("categoryName", .str c.categoryName)]

def sexDetailsToJx (sd : SexDetails) : Jx :=
  .obj [("id", .str sd.id), ("sex", .str sd.sex),
        ("oneLineDescription", .str sd.oneLineDescription),
        ("optimalRangeHigh", .str sd.optimalRangeHigh),
        ("optimalRangeLow", .str sd.optimalRangeLow),
        ("questRefRangeHigh", .str sd.questRefRangeHigh),
        ("questRefRangeLow", .str sd.questRefRangeLow)]

def biomarkerToJx (b : Biomarker) : Jx :=
  .obj [("id", .str b.id), ("name", .str b.name),
        ("questBiomarkerCode", .str b.questBiomarkerCode),
        ("categories", .arr (b.categories.map biomarkerCategoryToJx)),
        ("sexDetails", .arr (b.sexDetails.map sexDetailsToJx)),
        ("status", match b.status with | some s => .str s | none => .null)]

def ibdToJx (d : IndividualBiomarkerData) : Jx :=
  .obj [("id", .str d.id), ("name", .str d.name),
        ("oneLineDescription", .str d.oneLineDescription),
        ("whyItMatters", .str d.whyItMatters),
        ("recommendations", .str d.recommendations),
        ("causesDescription", .str d.causesDescription),
        ("symptomsDescription", .str d.symptomsDescription),
        ("foodsToEatDescription", .str d.foodsToEatDescription),
        ("foodsToAvoidDescription", .str d.foodsToAvoidDescription),
        ("supplementsDescription", .str d.supplementsDescription),
        ("selfCareDescription", .str d.selfCareDescription),
        ("additionalTestsDescription", .str d.additionalTestsDescription),
        ("followUpDescription", .str d.followUpDescription),
        ("resourcesCited", .str d.resourcesCited),
        ("sexFilter", .str d.sexFilter),
        ("fullData", d.fullData.getD .null)]

/-- JSON encoding of the whole aggregate, as JSON.stringify serializes the
userData object (field declaration order). -/
def userDataToJx (u : UserData) : Jx :=
  .obj [("profile", u.profile), ("settings", u.settings),
        ("results", .arr u.results),
        ("biomarkers", .arr (u.biomarkers.map biomarkerToJx)),
        ("categories", .arr u.categories),
        ("recommendations", .arr u.recommendations),
        ("reports", u.reports), ("biologicalAge", u.biologicalAge),
        ("bmi", u.bmi), ("notes", .arr u.notes),
        ("notifications", .arr u.notifications), ("cards", .arr u.cards),
        ("codes", .arr u.codes), ("inviteCode", u.inviteCode),
        ("requisitions", .arr u.requisitions),
        ("pendingSchedules", .arr u.pendingSchedules),
        ("smartAddons", .arr u.smartAddons), ("myStory", u.myStory),
        ("biomarkerDetails", .arr u.biomarkerDetails),
        ("individualBiomarkers", .arr (u.individualBiomarkers.map ibdToJx))]

/-- The exportInfo header of the combined file; JSON.stringify drops an
undefined email (this.tokens?.email with no session), and totalEndpoints is
Object.keys(userData).length = 20. -/
def exportInfoJx (timestamp : String) (email : Option String) : Jx :=
  .obj (("timestamp", Jx.str timestamp) ::
    ((match email with
      | some e => [("email", Jx.str e)]
      | none => []) ++
     [("totalEndpoints", Jx.num 20), ("exportVersion", Jx.str "1.0.0")]))

/-- The content of the combined export file. -/
def combinedExportJx (u : UserData) (timestamp : String) (email : Option String) : Jx :=
  .obj [("exportInfo", exportInfoJx timestamp email), ("userData", userDataToJx u)]

/-- The fixed per-section list of exportData: the nineteen (file name, data)
entries in declaration order.  Note it has no entry for the inviteCode key. -/
def exportSections (u : UserData) : List (String × Jx) :=
  [("profile", u.profile), ("settings", u.settings),
   ("health-results", .arr u.results),
   ("biomarkers", .arr (u.biomarkers.map biomarkerToJx)),
   ("categories", .arr u.categories),
   ("recommendations", .arr u.recommendations),
   ("reports", u.reports), ("biological-age", u.biologicalAge),
   ("bmi", u.bmi), ("notes", .arr u.notes),
   ("notifications", .arr u.notifications), ("cards", .arr u.cards),
   ("invite-codes", .arr u.codes),
   ("lab-requisitions", .arr u.requisitions),
   ("pending-schedules", .arr u.pendingSchedules),
   ("smart-addons", .arr u.smartAddons),
   ("my-story", u.myStory),
   ("biomarker-details", .arr u.biomarkerDetails),
   ("individual-biomarkers", .arr (u.individualBiomarkers.map ibdToJx))]

/-- The per-section metadata envelope written to each section file. -/
def envelopeJx (timestamp : String) (name : String) (data : Jx) : Jx :=
  .obj [("timestamp", .str timestamp), ("section", .str name), ("data", data)]

/-- exportData as the list of (path, JSON content) files it writes, in order:
the combined file first, then one file per section entry whose data is not
null (and not undefined, which cannot occur for these fields); empty arrays
pass that test and are written. -/
def exportData (u : UserData) (timestamp : String) (email : Option String)
    (outputDir : String) : List (String × Jx) :=
  (outputDir ++ "/complete-function-health-data.json",
    combinedExportJx u timestamp email) ::
  (exportSections u).filterMap (fun s =>
    if s.2.isNull then none
    else some (outputDir ++ "/" ++ s.1 ++ ".json", envelopeJx timestamp s.1 s.2))

/-! ## Concrete fixtures used by the theorems below -/

/-- The default configuration values of src config.ts (DEFAULT_CONFIG,
restricted to the fields the client reads). -/
def cfg0 : Config := ⟨3, 1000, 500, 300, 0⟩

/-- A session freshly issued at instant 0 with a one-hour expiry. -/
def tok0 : AuthTokens := ⟨"t0", "r0", some 3600, "u0", "a@b.com", 0⟩

/-- A run environment whose /user/settings endpoint answers 200 with body J
while every other endpoint answers 401. -/
def env401 (J : Jx) : Env :=
  ⟨cfg0, fun _ => .transportError "r",
   fun ep2 _ => if ep2 = "/user/settings" then .response 200 (some J)
                else .response 401 none, 0⟩

/-- An aggregate with a populated inviteCode key and everything else left at
its placeholder (so every list key holds the empty list). -/
def u5 : UserData :=
  { initialUserData with inviteCode := Jx.obj [("code", Jx.str "FH10")] }

/-- A biomarker with a Male-scoped detail variant. -/
def bW1 : Biomarker := ⟨"b1", "ALT", "", [], [⟨"m1", "Male", "", "", "", "", ""⟩], none⟩

/-- A biomarker with only an All-scoped detail variant. -/
def bW2 : Biomarker := ⟨"b2", "AST", "", [], [⟨"a2", "All", "", "", "", "", ""⟩], none⟩

/-- A biomarker with no detail variant at all. -/
def bW3 : Biomarker := ⟨"b3", "TSH", "", [], [], none⟩

/-- A run environment whose every endpoint answers 200 with a JSON null body. -/
def envW : Env :=
  ⟨cfg0, fun _ => .transportError "r", fun _ _ => .response 200 (some Jx.null), 0⟩

theorem retryAux_allFail {α : Type} (b : Nat)
    (errF : Nat → String) (op : Nat → Except String α)
    (hop : ∀ k, op k = .error (errF k)) :
    ∀ (n i calls : Nat) (waits : List Nat), 1 ≤ i → 1 ≤ n →
    retryAux b op n i calls waits =
      ⟨.error (errF (i + n - 1)), calls + n,
       waits ++ (List.range' i n).map (fun k => b * 2 ^ k)⟩ := by
  intro n
  induction n with
  | zero => intro i calls waits _ h1; omega
  | succ m ih =>
    intro i calls waits hi _
    rw [retryAux]
    simp only [if_pos (Nat.lt_of_lt_of_le Nat.zero_lt_one hi), hop i]
    by_cases hm : m = 0
    · subst hm
      simp only [if_pos rfl]
      rw [List.range'_one]
      simp
    · simp only [if_neg hm]
      rw [ih (i + 1) (calls + 1) (waits ++ [b * 2 ^ i]) (by omega) (by omega)]
      have hr : List.range' i (m + 1) = i :: List.range' (i + 1) m := rfl
      rw [hr, List.map_cons, List.append_assoc, List.singleton_append]
      have hc : calls + 1 + m = calls + (m + 1) := by omega
      have he : i + 1 + m - 1 = i + (m + 1) - 1 := by omega
      rw [hc, he]

theorem retryRun_allFail {α : Type} (b : Nat) (attempts : Nat)
    (errF : Nat → String) (op : Nat → Except String α)
    (hop : ∀ k, op k = .error (errF k)) (hA : 1 ≤ attempts) :
    retryRun b attempts op =
      ⟨.error (errF (attempts - 1)), attempts,
       (List.range' 1 (attempts - 1)).map (fun k => b * 2 ^ k)⟩ := by
  obtain ⟨m, rfl⟩ : ∃ m, attempts = m + 1 := ⟨attempts - 1, by omega⟩
  rw [retryRun, retryAux]
  simp only [Nat.lt_irrefl 0, if_false, hop 0, if_neg, reduceIte]
  by_cases hm : m = 0
  · subst hm
    simp
  · simp only [if_neg hm]
    rw [retryAux_allFail b errF op hop m 1 1 [] (by omega) (by omega)]
    simp only [List.nil_append]
    have h1 : 1 + m - 1 = m + 1 - 1 := by omega
    have h2 : 1 + m = m + 1 := by omega
    have h3 : m + 1 - 1 = m := by omega
    rw [h1, h2, h3]

theorem retryAux_firstOk {α : Type} (b : Nat)
    (op : Nat → Except String α) (j : Nat) (v : α) (hj : op j = .ok v)
    (hbefore : ∀ k, k < j → ∃ e, op k = .error e) :
    ∀ (n i calls : Nat) (waits : List Nat), i ≤ j → j < i + n →
    (retryAux b op n i calls waits).result = .ok v := by
  intro n
  induction n with
  | zero => intro i calls waits _ h1; omega
  | succ m ih =>
    intro i calls waits hij hlt
    rw [retryAux]
    by_cases hi : i = j
    · subst hi
      simp only [hj]
    · obtain ⟨e, he⟩ := hbefore i (by omega)
      simp only [he]
      have hm : ¬ m = 0 := by omega
      simp only [if_neg hm]
      exact ih (i + 1) (calls + 1) _ (by omega) (by omega)

theorem retryRun_firstSuccess {α : Type} (b : Nat) (attempts : Nat)
    (op : Nat → Except String α) (j : Nat) (v : α) (hj : op j = .ok v)
    (hjlt : j < attempts) (hbefore : ∀ k, k < j → ∃ e, op k = .error e) :
    (retryRun b attempts op).result = .ok v :=
  retryAux_firstOk b op j v hj hbefore attempts 0 0 [] (by omega) (by omega)

theorem retryRun_firstOk {α : Type} (b : Nat) (attempts : Nat)
    (op : Nat → Except String α) (v : α) (h0 : op 0 = .ok v) (hA : 1 ≤ attempts) :
    retryRun b attempts op = ⟨.ok v, 1, []⟩ := by
  obtain ⟨m, rfl⟩ : ∃ m, attempts = m + 1 := ⟨attempts - 1, by omega⟩
  rw [retryRun, retryAux]
  simp [h0]

theorem retryAux_errorOfAllFail {α : Type} (b : Nat)
    (op : Nat → Except String α) (hop : ∀ k, ∃ e, op k = .error e) :
    ∀ (n i calls : Nat) (waits : List Nat),
    ∃ e, (retryAux b op n i calls waits).result = .error e := by
  intro n
  induction n with
  | zero =>
    intro i calls waits
    exact ⟨_, rfl⟩
  | succ m ih =>
    intro i calls waits
    rw [retryAux]
    obtain ⟨e, he⟩ := hop i
    simp only [he]
    by_cases hm : m = 0
    · simp only [if_pos hm]
      exact ⟨e, rfl⟩
    · simp only [if_neg hm]
      exact ih (i + 1) (calls + 1) _

theorem retryRun_errorOfAllFail {α : Type} (b : Nat) (attempts : Nat)
    (op : Nat → Except String α) (hop : ∀ k, ∃ e, op k = .error e) :
    ∃ e, (retryRun b attempts op).result = .error e :=
  retryAux_errorOfAllFail b op hop attempts 0 0 []

/-- C2: for every retry configuration with maxAttempts m at least 1 and base
delay b, an operation that throws on every attempt is invoked exactly m times,
the forced waits are b * 2^i before attempt i for every i from 1 to m-1 (none
before attempt 0), so the cumulative forced wait before the final attempt is
b * (2^1 + 2^2 + ... + 2^(m-1)); and the executor returns the value of the first
attempt that succeeds. -/
theorem retryRequest_spec (α : Type) (m b : Nat) (hm : 1 ≤ m) :
    (∀ (errF : Nat → String) (op : Nat → Except String α),
      (∀ k, op k = .error (errF k)) →
      (retryRun b m op).calls = m ∧
      (retryRun b m op).waits = (List.range' 1 (m - 1)).map (fun i => b * 2 ^ i) ∧
      ((retryRun b m op).waits).sum =
        (((List.range' 1 (m - 1)).map (fun i => b * 2 ^ i))).sum) ∧
    (∀ (op : Nat → Except String α) (j : Nat) (v : α), j < m → op j = .ok v →
      (∀ k, k < j → ∃ e, op k = .error e) → (retryRun b m op).result = .ok v) := by
  constructor
  · intro errF op hop
    rw [retryRun_allFail b m errF op hop hm]
    exact ⟨rfl, rfl, rfl⟩
  · intro op j v hjm hj hbefore
    exact retryRun_firstSuccess b m op j v hj hjm hbefore

theorem retryRequest_spec_witness :
    (retryRun 100 3 (fun _ => (.error "boom" : Except String Nat))).calls = 3 ∧
    (retryRun 100 3 (fun _ => (.error "boom" : Except String Nat))).waits = [200, 400] ∧
    (retryRun 100 3
      (fun k => if k = 0 then (.error "boom" : Except String Nat) else .ok 7)).result = .ok 7 := by
  have h := retryRequest_spec Nat 3 100 (by omega)
  refine ⟨(h.1 (fun _ => "boom") _ (fun _ => rfl)).1, ?_, ?_⟩
  · rw [(h.1 (fun _ => "boom") _ (fun _ => rfl)).2.1]
    rfl
  · exact h.2 _ 1 7 (by omega) rfl (fun k hk => ⟨"boom", by
      have : k = 0 := by omega
      subst this
      rfl⟩)

/-- C7 counterexample: an operation that throws "boom" on both of its 2 allowed
attempts makes retryRequest rethrow the raw error "boom" itself, not a
RetryExhaustedError-wrapped form of it. -/
theorem retryExhausted_counterexample :
    (retryRun 100 2 (fun _ => (.error "boom" : Except String Nat))).result = .error "boom" ∧
    (retryRun 100 2 (fun _ => (.error "boom" : Except String Nat))).result ≠
      .error (retryExhaustedWrap "boom") := by
  have hval : (retryRun 100 2 (fun _ => (.error "boom" : Except String Nat))).result =
      .error "boom" := rfl
  refine ⟨hval, fun h => ?_⟩
  rw [hval] at h
  have : "boom" = retryExhaustedWrap "boom" := by injection h
  exact absurd this (by decide)

/-- C7 amended: when an operation throws on all of its allowed attempts, the
executor re-raises the last underlying error unchanged (there is no
RetryExhaustedError wrapper in the code), and this error propagates to the
caller of that operation. -/
theorem retryExhausted_raw_last_error (α : Type) (b m : Nat) (hm : 1 ≤ m)
    (errF : Nat → String) (op : Nat → Except String α)
    (hop : ∀ k, op k = .error (errF k)) :
    (retryRun b m op).result = .error (errF (m - 1)) := by
  rw [retryRun_allFail b m errF op hop hm]

theorem retryExhausted_raw_last_error_witness :
    (retryRun 100 3 (fun k => (.error (toString k) : Except String Nat))).result =
      .error "2" :=
  retryExhausted_raw_last_error Nat 100 3 (by omega) (fun k => toString k)
    (fun k => .error (toString k)) (fun _ => rfl)

/-! ## Gateway lemmas -/

theorem refreshTokenIfNeeded_fresh (cfg : Config) (roracle : Nat → RefreshOutcome)
    (now : Int) (t : AuthTokens) (h : tokenStale cfg now t = false) :
    refreshTokenIfNeeded cfg roracle now (some t) = ⟨.ok t, 0⟩ := by
  simp [refreshTokenIfNeeded, h]

theorem makeRequest_refresh_result (cfg : Config) (roracle : Nat → RefreshOutcome)
    (oracle : String → Nat → FetchOutcome) (ep : String) (now : Int)
    (tokens : Option AuthTokens) (t : AuthTokens) (n : Nat)
    (hr : refreshTokenIfNeeded cfg roracle now tokens = ⟨.ok t, n⟩) :
    makeRequest cfg roracle oracle ep now tokens =
      (match makeRequestTry
          (retryRun cfg.retryDelay cfg.retryAttempts (fetchOp (oracle ep))).result with
       | .ok v =>
         ⟨.ok v, (retryRun cfg.retryDelay cfg.retryAttempts (fetchOp (oracle ep))).calls,
          n, some t, some t.idToken, none⟩
       | .error e =>
         ⟨.ok .null, (retryRun cfg.retryDelay cfg.retryAttempts (fetchOp (oracle ep))).calls,
          n, some t, some t.idToken, some e⟩) := by
  rw [makeRequest, hr]

theorem makeRequest_refresh_ok (cfg : Config) (roracle : Nat → RefreshOutcome)
    (oracle : String → Nat → FetchOutcome) (ep : String) (now : Int)
    (tokens : Option AuthTokens) (t : AuthTokens)
    (hr : refreshTokenIfNeeded cfg roracle now tokens = ⟨.ok t, 0⟩) :
    makeRequest cfg roracle oracle ep now tokens =
      (match makeRequestTry
          (retryRun cfg.retryDelay cfg.retryAttempts (fetchOp (oracle ep))).result with
       | .ok v =>
         ⟨.ok v, (retryRun cfg.retryDelay cfg.retryAttempts (fetchOp (oracle ep))).calls,
          0, some t, some t.idToken, none⟩
       | .error e =>
         ⟨.ok .null, (retryRun cfg.retryDelay cfg.retryAttempts (fetchOp (oracle ep))).calls,
          0, some t, some t.idToken, some e⟩) :=
  makeRequest_refresh_result cfg roracle oracle ep now tokens t 0 hr

theorem getJson_allFail (env : Env) (ep : String) (t : AuthTokens)
    (hfresh : tokenStale env.cfg env.now t = false)
    (hfail : ∀ i, ∃ m, env.oracle ep i = .transportError m) :
    getJson env ep (some t) = (.ok Jx.null, some t) := by
  have hrf : refreshTokenIfNeeded env.cfg env.roracle env.now (some t) = ⟨.ok t, 0⟩ :=
    refreshTokenIfNeeded_fresh _ _ _ _ hfresh
  obtain ⟨e, he⟩ := retryRun_errorOfAllFail env.cfg.retryDelay env.cfg.retryAttempts
    (fetchOp (env.oracle ep)) (fun k => by
      obtain ⟨m, hm⟩ := hfail k
      exact ⟨m, by rw [fetchOp, hm]⟩)
  rw [getJson, makeRequest_refresh_ok _ _ _ _ _ _ _ hrf]
  rw [he]
  rfl

/-- C10: when the HTTP call of a gateway request resolves on its first attempt
with any non-2xx status (including 429 and statuses at least 500), the
underlying HTTP operation is invoked exactly once: the retry executor retries
only thrown errors, and a resolved response carrying an error status is a
success for it, so HTTP-status failures are never retried with backoff. -/
theorem makeRequest_status_not_retried (cfg : Config)
    (roracle : Nat → RefreshOutcome) (oracle : String → Nat → FetchOutcome)
    (ep : String) (now : Int) (t : AuthTokens)
    (hA : 1 ≤ cfg.retryAttempts) (hfresh : tokenStale cfg now t = false)
    (status : Nat) (body : Option Jx) (h0 : oracle ep 0 = .response status body)
    (_hns : respOk status = false) :
    (makeRequest cfg roracle oracle ep now (some t)).httpCalls = 1 := by
  have hrf : refreshTokenIfNeeded cfg roracle now (some t) = ⟨.ok t, 0⟩ :=
    refreshTokenIfNeeded_fresh _ _ _ _ hfresh
  have hrr : retryRun cfg.retryDelay cfg.retryAttempts (fetchOp (oracle ep)) =
      ⟨.ok (status, body), 1, []⟩ :=
    retryRun_firstOk _ _ _ _ (by rw [fetchOp, h0]) hA
  rw [makeRequest_refresh_ok _ _ _ _ _ _ _ hrf, hrr]
  cases htry : makeRequestTry (Except.ok (status, body)) <;> simp

theorem makeRequest_status_not_retried_witness :
    (makeRequest ⟨3, 1000, 500, 300, 0⟩ (fun _ => .transportError "r")
      (fun _ _ => .response 503 none) "/user" 0
      (some ⟨"t0", "r0", some 3600, "u0", "a@b.com", 0⟩)).httpCalls = 1 :=
  makeRequest_status_not_retried ⟨3, 1000, 500, 300, 0⟩ (fun _ => .transportError "r")
    (fun _ _ => .response 503 none) "/user" 0 ⟨"t0", "r0", some 3600, "u0", "a@b.com", 0⟩
    (by decide) (by decide) 503 none rfl (by decide)

theorem getJson_firstResponse (env : Env) (ep : String) (t : AuthTokens)
    (hA : 1 ≤ env.cfg.retryAttempts) (hfresh : tokenStale env.cfg env.now t = false)
    (status : Nat) (body : Option Jx) (h0 : env.oracle ep 0 = .response status body) :
    getJson env ep (some t) =
      (match makeRequestTry (Except.ok (status, body)) with
       | .ok v => (.ok v, some t)
       | .error _ => (.ok Jx.null, some t)) := by
  have hrf : refreshTokenIfNeeded env.cfg env.roracle env.now (some t) = ⟨.ok t, 0⟩ :=
    refreshTokenIfNeeded_fresh _ _ _ _ hfresh
  have hrr : retryRun env.cfg.retryDelay env.cfg.retryAttempts (fetchOp (env.oracle ep)) =
      ⟨.ok (status, body), 1, []⟩ :=
    retryRun_firstOk _ _ _ _ (by rw [fetchOp, h0]) hA
  rw [getJson, makeRequest_refresh_ok _ _ _ _ _ _ _ hrf, hrr]
  cases makeRequestTry (Except.ok (status, body)) <;> rfl

theorem taskStep_ok {V : Type} (env : Env) (u : UserData)
    (tk tk2 : Option AuthTokens)
    (fetcher : Env → Option AuthTokens → Except String V × Option AuthTokens)
    (assign : UserData → V → UserData) (v : V)
    (h : fetcher env tk = (.ok v, tk2)) :
    taskStep env (u, tk) fetcher assign = (assign u v, tk2) := by
  simp [taskStep, h]

theorem taskStep_err {V : Type} (env : Env) (u : UserData)
    (tk tk2 : Option AuthTokens)
    (fetcher : Env → Option AuthTokens → Except String V × Option AuthTokens)
    (assign : UserData → V → UserData) (e : String)
    (h : fetcher env tk = (.error e, tk2)) :
    taskStep env (u, tk) fetcher assign = (u, tk2) := by
  simp [taskStep, h]

/-- Evaluation of the whole catalog from the per-task fetch results, for a run
in which the token state is left unchanged by every task. -/
theorem catalogPhase_values (env : Env) (t : Option AuthTokens)
    (vprof vset vinv : Jx) (vcards vcodes vres : List Jx)
    (vbio : List Biomarker) (vcat vbdet : List Jx)
    (vrep vage vbmi vstory : Jx) (vrec vnotes vnotif vreq vps vsa : List Jx)
    (h1 : fetchUserProfile env t = (.ok vprof, t))
    (h2 : fetchUserSettings env t = (.ok vset, t))
    (h3 : fetchInviteCode env t = (.ok vinv, t))
    (h4 : fetchUserCards env t = (.ok vcards, t))
    (h5 : fetchUserCodes env t = (.ok vcodes, t))
    (h6 : fetchResults env t = (.ok vres, t))
    (h7 : fetchBiomarkers env t = (.ok vbio, t))
    (h8 : fetchCategories env t = (.ok vcat, t))
    (h9 : fetchBiomarkerDetails env t = (.ok vbdet, t))
    (h10 : fetchResultsReport env t = (.ok vrep, t))
    (h11 : fetchRecommendations env t = (.ok vrec, t))
    (h12 : fetchBiologicalAge env t = (.ok vage, t))
    (h13 : fetchBMI env t = (.ok vbmi, t))
    (h14 : fetchMyStory env t = (.ok vstory, t))
    (h15 : fetchNotes env t = (.ok vnotes, t))
    (h16 : fetchNotifications env t = (.ok vnotif, t))
    (h17 : fetchRequisitions env t = (.ok vreq, t))
    (h18 : fetchPendingSchedules env t = (.ok vps, t))
    (h19 : fetchSmartAddons env t = (.ok vsa, t)) :
    catalogPhase env t =
      (⟨vprof, vset, vres, vbio, vcat, vrec, vrep, vage, vbmi, vnotes, vnotif,
        vcards, vcodes, vinv, vreq, vps, vsa, vstory, vbdet, []⟩, t) := by
  simp only [catalogPhase]
  rw [taskStep_ok _ _ _ _ _ _ _ h1, taskStep_ok _ _ _ _ _ _ _ h2,
      taskStep_ok _ _ _ _ _ _ _ h3, taskStep_ok _ _ _ _ _ _ _ h4,
      taskStep_ok _ _ _ _ _ _ _ h5, taskStep_ok _ _ _ _ _ _ _ h6,
      taskStep_ok _ _ _ _ _ _ _ h7, taskStep_ok _ _ _ _ _ _ _ h8,
      taskStep_ok _ _ _ _ _ _ _ h9, taskStep_ok _ _ _ _ _ _ _ h10,
      taskStep_ok _ _ _ _ _ _ _ h11, taskStep_ok _ _ _ _ _ _ _ h12,
      taskStep_ok _ _ _ _ _ _ _ h13, taskStep_ok _ _ _ _ _ _ _ h14,
      taskStep_ok _ _ _ _ _ _ _ h15, taskStep_ok _ _ _ _ _ _ _ h16,
      taskStep_ok _ _ _ _ _ _ _ h17, taskStep_ok _ _ _ _ _ _ _ h18,
      taskStep_ok _ _ _ _ _ _ _ h19]
  rfl

/-- With no session, every makeRequest throws "Not authenticated" before its
try block, leaving the token state absent. -/
theorem getJson_noAuth (env : Env) (ep : String) :
    getJson env ep none =
      (.error "Not authenticated - call login() first", none) := rfl

/-- With no session every catalog task throws, every per-task catch swallows
the error, and the catalog returns the untouched initializer. -/
theorem catalogPhase_noAuth (env : Env) :
    catalogPhase env none = (initialUserData, none) := by
  have he : ∀ ep, getJson env ep none =
      (.error "Not authenticated - call login() first", none) := fun ep => rfl
  have hprof : fetchUserProfile env none =
      (.error "Not authenticated - call login() first", none) := by
    simp [fetchUserProfile, he, Except.map]
  have hsett : fetchUserSettings env none =
      (.error "Not authenticated - call login() first", none) := he _
  have hlist : ∀ ep, fetchListEndpoint env ep none =
      (.error "Not authenticated - call login() first", none) := by
    intro ep
    simp [fetchListEndpoint, he, Except.map]
  have hbio : fetchBiomarkers env none =
      (.error "Not authenticated - call login() first", none) := by
    simp [fetchBiomarkers, he, Except.map]
  have hbmi : fetchBMI env none =
      (.error "Not authenticated - call login() first", none) := by
    simp [fetchBMI, fetchResults, hlist]
  have hreq : fetchRequisitions env none =
      (.error "Not authenticated - call login() first", none) := by
    simp [fetchRequisitions, he]
  have hinv : fetchInviteCode env none =
      (.error "Not authenticated - call login() first", none) := he _
  have hcards : fetchUserCards env none =
      (.error "Not authenticated - call login() first", none) := hlist _
  have hcodes : fetchUserCodes env none =
      (.error "Not authenticated - call login() first", none) := hlist _
  have hres : fetchResults env none =
      (.error "Not authenticated - call login() first", none) := hlist _
  have hcat : fetchCategories env none =
      (.error "Not authenticated - call login() first", none) := hlist _
  have hbdet : fetchBiomarkerDetails env none =
      (.error "Not authenticated - call login() first", none) := hlist _
  have hrep : fetchResultsReport env none =
      (.error "Not authenticated - call login() first", none) := he _
  have hrec : fetchRecommendations env none =
      (.error "Not authenticated - call login() first", none) := hlist _
  have hage : fetchBiologicalAge env none =
      (.error "Not authenticated - call login() first", none) := he _
  have hstory : fetchMyStory env none =
      (.error "Not authenticated - call login() first", none) := he _
  have hnotes : fetchNotes env none =
      (.error "Not authenticated - call login() first", none) := hlist _
  have hnotif : fetchNotifications env none =
      (.error "Not authenticated - call login() first", none) := hlist _
  have hps : fetchPendingSchedules env none =
      (.error "Not authenticated - call login() first", none) := hlist _
  have hsa : fetchSmartAddons env none =
      (.error "Not authenticated - call login() first", none) := hlist _
  simp only [catalogPhase]
  rw [taskStep_err _ _ _ _ _ _ _ hprof, taskStep_err _ _ _ _ _ _ _ hsett,
      taskStep_err _ _ _ _ _ _ _ hinv, taskStep_err _ _ _ _ _ _ _ hcards,
      taskStep_err _ _ _ _ _ _ _ hcodes, taskStep_err _ _ _ _ _ _ _ hres,
      taskStep_err _ _ _ _ _ _ _ hbio, taskStep_err _ _ _ _ _ _ _ hcat,
      taskStep_err _ _ _ _ _ _ _ hbdet, taskStep_err _ _ _ _ _ _ _ hrep,
      taskStep_err _ _ _ _ _ _ _ hrec, taskStep_err _ _ _ _ _ _ _ hage,
      taskStep_err _ _ _ _ _ _ _ hbmi, taskStep_err _ _ _ _ _ _ _ hstory,
      taskStep_err _ _ _ _ _ _ _ hnotes, taskStep_err _ _ _ _ _ _ _ hnotif,
      taskStep_err _ _ _ _ _ _ _ hreq, taskStep_err _ _ _ _ _ _ _ hps,
      taskStep_err _ _ _ _ _ _ _ hsa]

/-- C3 counterexample: with a fresh session and an endpoint answering 401, the
error raised by the status ladder does not escape the fetch: makeRequest's own
catch converts it to a null return, so the call yields ok null rather than
raising the auth-expired error out of that fetch. -/
theorem gateway_401_counterexample :
    (makeRequest cfg0 (fun _ => .transportError "r")
      (fun _ _ => .response 401 none) "/user" 0 (some tok0)).result = .ok Jx.null ∧
    (makeRequest cfg0 (fun _ => .transportError "r")
      (fun _ _ => .response 401 none) "/user" 0 (some tok0)).result ≠
      .error authExpiredMsg := by
  have hval : (makeRequest cfg0 (fun _ => .transportError "r")
      (fun _ _ => .response 401 none) "/user" 0 (some tok0)).result = .ok Jx.null := rfl
  refine ⟨hval, fun h => ?_⟩
  rw [hval] at h
  exact Except.noConfusion h

/-- C3 amended: a 401 response makes the gateway raise the auth-expired error,
a 429 the rate-limited error and a status of at least 500 the server error
inside its status ladder, but makeRequest's catch-all converts each of those to
a logged error plus a null return, so no error escapes the fetch; any other
non-2xx status returns null without raising; in all cases the fetch's result is
the null that the caller turns into the declared empty placeholder, and
subsequent endpoint fetches in the same run still execute (concretely: a run
whose /user endpoint answers 401 while /user/settings answers 200 with body J
still stores J under settings). -/
theorem gateway_status_handling (cfg : Config) (roracle : Nat → RefreshOutcome)
    (oracle : String → Nat → FetchOutcome) (ep : String) (now : Int)
    (t : AuthTokens) (hA : 1 ≤ cfg.retryAttempts)
    (hfresh : tokenStale cfg now t = false) :
    classifyStatus 401 = .error authExpiredMsg ∧
    classifyStatus 429 = .error rateLimitedMsg ∧
    (∀ s, 500 ≤ s → classifyStatus s = .error (serverErrorMsg s)) ∧
    (∀ b, oracle ep 0 = .response 401 b →
      (makeRequest cfg roracle oracle ep now (some t)).result = .ok .null ∧
      (makeRequest cfg roracle oracle ep now (some t)).caught = some authExpiredMsg) ∧
    (∀ b, oracle ep 0 = .response 429 b →
      (makeRequest cfg roracle oracle ep now (some t)).caught = some rateLimitedMsg) ∧
    (∀ s b, 500 ≤ s → oracle ep 0 = .response s b →
      (makeRequest cfg roracle oracle ep now (some t)).caught = some (serverErrorMsg s)) ∧
    (∀ s b, respOk s = false → s ≠ 401 → s ≠ 429 → s < 500 →
      oracle ep 0 = .response s b →
      (makeRequest cfg roracle oracle ep now (some t)).result = .ok .null ∧
      (makeRequest cfg roracle oracle ep now (some t)).caught = none) ∧
    (∀ J : Jx, fetchAllData (env401 J) (some tok0) =
      .ok { initialUserData with settings := J, reports := Jx.null }) := by
  have hrf : refreshTokenIfNeeded cfg roracle now (some t) = ⟨.ok t, 0⟩ :=
    refreshTokenIfNeeded_fresh _ _ _ _ hfresh
  have hmk : ∀ status body, oracle ep 0 = .response status body →
      makeRequest cfg roracle oracle ep now (some t) =
        (match makeRequestTry (Except.ok (status, body)) with
         | .ok v => ⟨.ok v, 1, 0, some t, some t.idToken, none⟩
         | .error e => ⟨.ok .null, 1, 0, some t, some t.idToken, some e⟩) := by
    intro status body h0
    have hrr : retryRun cfg.retryDelay cfg.retryAttempts (fetchOp (oracle ep)) =
        ⟨.ok (status, body), 1, []⟩ :=
      retryRun_firstOk _ _ _ _ (by rw [fetchOp, h0]) hA
    rw [makeRequest_refresh_ok _ _ _ _ _ _ _ hrf, hrr]
  refine ⟨rfl, rfl, ?_, ?_, ?_, ?_, ?_, ?_⟩
  · intro s hs
    rw [classifyStatus, if_neg (by omega), if_neg (by omega), if_pos hs]
  · intro b h0
    rw [hmk 401 b h0]
    exact ⟨rfl, rfl⟩
  · intro b h0
    rw [hmk 429 b h0]
    rfl
  · intro s b hs h0
    rw [hmk s b h0]
    have hok : respOk s = false := by
      simp only [respOk, Bool.and_eq_false_iff]
      right
      simp only [decide_eq_false_iff_not]
      omega
    have htry : makeRequestTry (Except.ok (s, b)) = .error (serverErrorMsg s) := by
      simp only [makeRequestTry, hok]
      simp only [Bool.false_eq_true, if_false]
      rw [classifyStatus, if_neg (by omega), if_neg (by omega), if_pos hs]
    rw [htry]
  · intro s b hok h401 h429 h500 h0
    rw [hmk s b h0]
    have htry : makeRequestTry (Except.ok (s, b)) = .ok .null := by
      simp only [makeRequestTry, hok]
      simp only [Bool.false_eq_true, if_false]
      rw [classifyStatus, if_neg h401, if_neg h429, if_neg (by omega)]
    rw [htry]
    exact ⟨rfl, rfl⟩
  · intro J
    have hgjN : ∀ ep, ep ≠ "/user/settings" →
        getJson (env401 J) ep (some tok0) = (.ok Jx.null, some tok0) := by
      intro ep hep
      rw [getJson_firstResponse (env401 J) ep tok0
        (by show (1 : Nat) ≤ 3; decide) (by show tokenStale cfg0 0 tok0 = false; decide)
        401 none (by simp [env401, hep])]
      rfl
    have hgjS : getJson (env401 J) "/user/settings" (some tok0) = (.ok J, some tok0) := by
      rw [getJson_firstResponse (env401 J) "/user/settings" tok0
        (by show (1 : Nat) ≤ 3; decide) (by show tokenStale cfg0 0 tok0 = false; decide)
        200 (some J) rfl]
      rfl
    have hlist : ∀ ep, ep ≠ "/user/settings" →
        fetchListEndpoint (env401 J) ep (some tok0) = (.ok [], some tok0) := by
      intro ep hep
      simp [fetchListEndpoint, hgjN ep hep, asList, Except.map]
    have hprof : fetchUserProfile (env401 J) (some tok0) = (.ok Jx.null, some tok0) := by
      simp [fetchUserProfile, hgjN "/user" (by decide), jsTruthy, Except.map]
    have hsett : fetchUserSettings (env401 J) (some tok0) = (.ok J, some tok0) := hgjS
    have hinv : fetchInviteCode (env401 J) (some tok0) = (.ok Jx.null, some tok0) :=
      hgjN _ (by decide)
    have hcards : fetchUserCards (env401 J) (some tok0) = (.ok [], some tok0) :=
      hlist _ (by decide)
    have hcodes : fetchUserCodes (env401 J) (some tok0) = (.ok [], some tok0) :=
      hlist _ (by decide)
    have hres : fetchResults (env401 J) (some tok0) = (.ok [], some tok0) :=
      hlist _ (by decide)
    have hbio : fetchBiomarkers (env401 J) (some tok0) = (.ok [], some tok0) := by
      simp [fetchBiomarkers, hgjN "/biomarkers" (by decide), asList, Except.map]
    have hcat2 : fetchCategories (env401 J) (some tok0) = (.ok [], some tok0) :=
      hlist _ (by decide)
    have hbdet : fetchBiomarkerDetails (env401 J) (some tok0) = (.ok [], some tok0) :=
      hlist _ (by decide)
    have hrep : fetchResultsReport (env401 J) (some tok0) = (.ok Jx.null, some tok0) :=
      hgjN _ (by decide)
    have hrec : fetchRecommendations (env401 J) (some tok0) = (.ok [], some tok0) :=
      hlist _ (by decide)
    have hage : fetchBiologicalAge (env401 J) (some tok0) = (.ok Jx.null, some tok0) :=
      hgjN _ (by decide)
    have hbmi : fetchBMI (env401 J) (some tok0) = (.ok Jx.null, some tok0) := by
      rw [fetchBMI]
      rw [show fetchResults (env401 J) (some tok0) = (.ok [], some tok0) from hres]
      exact hgjN _ (by decide)
    have hstory : fetchMyStory (env401 J) (some tok0) = (.ok Jx.null, some tok0) :=
      hgjN _ (by decide)
    have hnotes : fetchNotes (env401 J) (some tok0) = (.ok [], some tok0) :=
      hlist _ (by decide)
    have hnotif : fetchNotifications (env401 J) (some tok0) = (.ok [], some tok0) :=
      hlist _ (by decide)
    have hreq : fetchRequisitions (env401 J) (some tok0) = (.ok [], some tok0) := by
      simp [fetchRequisitions, hgjN "/requisitions?pending=true" (by decide),
            hgjN "/requisitions?pending=false" (by decide), asList]
    have hps : fetchPendingSchedules (env401 J) (some tok0) = (.ok [], some tok0) :=
      hlist _ (by decide)
    have hsa : fetchSmartAddons (env401 J) (some tok0) = (.ok [], some tok0) :=
      hlist _ (by decide)
    have hcatalog := catalogPhase_values (env401 J) (some tok0)
      Jx.null J Jx.null [] [] [] [] [] [] Jx.null Jx.null Jx.null Jx.null
      [] [] [] [] [] []
      hprof hsett hinv hcards hcodes hres hbio hcat2 hbdet hrep hrec hage hbmi
      hstory hnotes hnotif hreq hps hsa
    rw [fetchAllData, hcatalog]
    rfl

/-- C4 counterexample: a run started without ever logging in (no session) does
not raise: every task's "Not authenticated" error is swallowed by the per-task
catch, and fetchAllData returns the untouched placeholder aggregate instead of
aborting. -/
theorem fetchAll_no_session_counterexample :
    fetchAllData ⟨cfg0, fun _ => .transportError "r",
      fun _ _ => .transportError "d", 0⟩ none = .ok initialUserData := by
  rw [fetchAllData,
      catalogPhase_noAuth ⟨cfg0, fun _ => .transportError "r",
        fun _ _ => .transportError "d", 0⟩]
  rfl

/-- C4 amended: fetchAllData never raises for partial endpoint failures, and an
absent session (or a refresh failure) during the main catalog is likewise
contained at the per-task boundary - with no session the whole run returns the
placeholder aggregate instead of raising; the only errors fetchAllData can
raise are those escaping the secondary per-biomarker detail phase, which runs
only when biomarkers were retrieved. -/
theorem fetchAll_error_boundary (env : Env) (tk : Option AuthTokens) :
    fetchAllData env none = .ok initialUserData ∧
    ((catalogPhase env tk).1.biomarkers = [] →
      fetchAllData env tk = .ok (catalogPhase env tk).1) ∧
    (∀ e, fetchAllData env tk = .error e →
      (catalogPhase env tk).1.biomarkers ≠ [] ∧
      ∃ limited, fetchIndividualBiomarkers env limited
          (some (userSexOf (catalogPhase env tk).1.profile))
          (catalogPhase env tk).2 = .error e) := by
  refine ⟨?_, ?_, ?_⟩
  · rw [fetchAllData, catalogPhase_noAuth env]
    rfl
  · intro h
    rw [fetchAllData]
    simp only [h, List.length_nil, Nat.lt_irrefl, if_false]
  · intro e he
    rw [fetchAllData] at he
    by_cases hb : 0 < (catalogPhase env tk).1.biomarkers.length
    · simp only [if_pos hb] at he
      constructor
      · exact List.ne_nil_of_length_pos hb
      · by_cases hl : 0 < (if 0 < env.cfg.maxIndividualBiomarkers then
            (catalogPhase env tk).1.biomarkers.take env.cfg.maxIndividualBiomarkers
          else (catalogPhase env tk).1.biomarkers).length
        · simp only [if_pos hl] at he
          cases hfib : fetchIndividualBiomarkers env
              (if 0 < env.cfg.maxIndividualBiomarkers then
                (catalogPhase env tk).1.biomarkers.take env.cfg.maxIndividualBiomarkers
              else (catalogPhase env tk).1.biomarkers)
              (some (userSexOf (catalogPhase env tk).1.profile))
              (catalogPhase env tk).2 with
          | error e2 =>
            rw [hfib] at he
            simp only [Except.error.injEq] at he
            exact ⟨_, by rw [hfib, he]⟩
          | ok val =>
            rw [hfib] at he
            exact absurd he (by simp)
        · simp only [if_neg hl] at he
          exact absurd he (by simp)
    · simp only [if_neg hb] at he
      exact absurd he (by simp)

theorem fetchAll_error_boundary_witness :
    fetchAllData ⟨cfg0, fun _ => .transportError "r",
        fun _ _ => .transportError "d", 0⟩ none = .ok initialUserData ∧
    fetchAllData ⟨cfg0, fun _ => .transportError "r",
        fun _ _ => .transportError "d", 0⟩ none =
      .ok (catalogPhase ⟨cfg0, fun _ => .transportError "r",
        fun _ _ => .transportError "d", 0⟩ none).1 :=
  ⟨(fetchAll_error_boundary ⟨cfg0, fun _ => .transportError "r",
      fun _ _ => .transportError "d", 0⟩ none).1,
   (fetchAll_error_boundary ⟨cfg0, fun _ => .transportError "r",
      fun _ _ => .transportError "d", 0⟩ none).2.1
    (by rw [catalogPhase_noAuth]; rfl)⟩

/-- C1: when every single fetch fails (the gateway's HTTP calls throw on every
attempt) in a run with a live fresh session, the aggregate still carries every
declared task name of the fixed catalog as a key, and each key holds its
declared empty placeholder: null for the scalar endpoints (including the
results-report task, whose fetch is scalar) and the empty list for the
collection endpoints. -/
theorem fetchAll_keys_total_failure (env : Env) (t : AuthTokens)
    (hfresh : tokenStale env.cfg env.now t = false)
    (hfail : ∀ ep i, ∃ m, env.oracle ep i = .transportError m) :
    ∃ u, fetchAllData env (some t) = .ok u ∧
      (∀ name ∈ catalogTaskNames, (u.get name).isSome = true) ∧
      u.profile = .null ∧ u.settings = .null ∧ u.inviteCode = .null ∧
      u.cards = [] ∧ u.codes = [] ∧ u.results = [] ∧ u.biomarkers = [] ∧
      u.categories = [] ∧ u.biomarkerDetails = [] ∧ u.reports = .null ∧
      u.recommendations = [] ∧ u.biologicalAge = .null ∧ u.bmi = .null ∧
      u.myStory = .null ∧ u.notes = [] ∧ u.notifications = [] ∧
      u.requisitions = [] ∧ u.pendingSchedules = [] ∧ u.smartAddons = [] := by
  have hgj : ∀ ep, getJson env ep (some t) = (.ok Jx.null, some t) :=
    fun ep => getJson_allFail env ep t hfresh (hfail ep)
  have hlist : ∀ ep, fetchListEndpoint env ep (some t) = (.ok [], some t) := by
    intro ep
    simp [fetchListEndpoint, hgj, asList, Except.map]
  have hprof : fetchUserProfile env (some t) = (.ok Jx.null, some t) := by
    simp [fetchUserProfile, hgj, jsTruthy, Except.map]
  have hsett : fetchUserSettings env (some t) = (.ok Jx.null, some t) := hgj _
  have hinv : fetchInviteCode env (some t) = (.ok Jx.null, some t) := hgj _
  have hcards : fetchUserCards env (some t) = (.ok [], some t) := hlist _
  have hcodes : fetchUserCodes env (some t) = (.ok [], some t) := hlist _
  have hres : fetchResults env (some t) = (.ok [], some t) := hlist _
  have hbio : fetchBiomarkers env (some t) = (.ok [], some t) := by
    simp [fetchBiomarkers, hgj, asList, Except.map]
  have hcat2 : fetchCategories env (some t) = (.ok [], some t) := hlist _
  have hbdet : fetchBiomarkerDetails env (some t) = (.ok [], some t) := hlist _
  have hrep : fetchResultsReport env (some t) = (.ok Jx.null, some t) := hgj _
  have hrec : fetchRecommendations env (some t) = (.ok [], some t) := hlist _
  have hage : fetchBiologicalAge env (some t) = (.ok Jx.null, some t) := hgj _
  have hbmi : fetchBMI env (some t) = (.ok Jx.null, some t) := by
    rw [fetchBMI, show fetchResults env (some t) = (.ok [], some t) from hres]
    exact hgj _
  have hstory : fetchMyStory env (some t) = (.ok Jx.null, some t) := hgj _
  have hnotes : fetchNotes env (some t) = (.ok [], some t) := hlist _
  have hnotif : fetchNotifications env (some t) = (.ok [], some t) := hlist _
  have hreq : fetchRequisitions env (some t) = (.ok [], some t) := by
    simp [fetchRequisitions, hgj, asList]
  have hps : fetchPendingSchedules env (some t) = (.ok [], some t) := hlist _
  have hsa : fetchSmartAddons env (some t) = (.ok [], some t) := hlist _
  have hcatalog := catalogPhase_values env (some t)
    Jx.null Jx.null Jx.null [] [] [] [] [] [] Jx.null Jx.null Jx.null Jx.null
    [] [] [] [] [] []
    hprof hsett hinv hcards hcodes hres hbio hcat2 hbdet hrep hrec hage hbmi
    hstory hnotes hnotif hreq hps hsa
  refine ⟨⟨Jx.null, Jx.null, [], [], [], [], Jx.null, Jx.null, Jx.null, [], [],
    [], [], Jx.null, [], [], [], Jx.null, [], []⟩, ?_, by decide, rfl, rfl, rfl,
    rfl, rfl, rfl, rfl, rfl, rfl, rfl, rfl, rfl, rfl, rfl, rfl, rfl, rfl, rfl, rfl⟩
  rw [fetchAllData, hcatalog]
  rfl

theorem fetchAll_keys_total_failure_witness :
    ∃ u, fetchAllData ⟨cfg0, fun _ => .transportError "r",
        fun _ _ => .transportError "d", 0⟩ (some tok0) = .ok u ∧
      (∀ name ∈ catalogTaskNames, (u.get name).isSome = true) := by
  obtain ⟨u, h1, h2, _⟩ := fetchAll_keys_total_failure
    ⟨cfg0, fun _ => .transportError "r", fun _ _ => .transportError "d", 0⟩ tok0
    (by decide) (fun ep i => ⟨"d", rfl⟩)
  exact ⟨u, h1, h2⟩

theorem gateway_status_handling_witness :
    (makeRequest cfg0 (fun _ => .transportError "r")
      (fun _ _ => .response 401 none) "/user" 0 (some tok0)).caught =
        some authExpiredMsg ∧
    fetchAllData (env401 (Jx.str "dark")) (some tok0) =
      .ok { initialUserData with settings := Jx.str "dark", reports := Jx.null } := by
  have h := gateway_status_handling cfg0 (fun _ => .transportError "r")
    (fun _ _ => .response 401 none) "/user" 0 tok0 (by decide) (by decide)
  exact ⟨(h.2.2.2.1 none rfl).2, h.2.2.2.2.2.2.2 _⟩

/-- C8 counterexample: a login response with a successful status that carries
an access token but an empty refresh token does not lack both tokens, yet
login fails - the code throws when either token is missing, not only when both
are. -/
theorem login_counterexample :
    login cfg0 (fun _ => .response 200 (some ⟨"t1", "", "3600", "u1", "a@b.com"⟩)) 0 =
      .error "Invalid login response - missing authentication tokens" ∧
    respOk 200 = true := ⟨rfl, rfl⟩

/-- C8 amended: when the login HTTP call resolves on its first attempt, login
fails exactly when the endpoint returns a non-success status, or the body does
not parse, or the response lacks the access token or the refresh token (either
one missing suffices); on success it stores a session whose issuedAt timestamp
(loginTime) is the current time. -/
theorem login_failure_characterization (cfg : Config) (oracle : Nat → LoginOutcome)
    (now : Int) (hA : 1 ≤ cfg.retryAttempts) (status : Nat) (body : Option LoginBody)
    (h0 : oracle 0 = .response status body) :
    ((∃ e, login cfg oracle now = .error e) ↔
      (respOk status = false ∨ body = none ∨
        ∃ d, body = some d ∧ (d.idToken = "" ∨ d.refreshToken = ""))) ∧
    (∀ d, body = some d → respOk status = true → d.idToken ≠ "" →
      d.refreshToken ≠ "" →
      login cfg oracle now =
        .ok ⟨d.idToken, d.refreshToken, parseIntDec d.expiresIn, d.localId,
             d.email, now⟩) := by
  have hrr : retryRun cfg.retryDelay cfg.retryAttempts (loginOp oracle) =
      ⟨.ok (status, body), 1, []⟩ :=
    retryRun_firstOk _ _ _ _ (by rw [loginOp, h0]) hA
  rw [login, hrr]
  by_cases hok : respOk status = true
  · cases body with
    | none => simp [hok]
    | some d =>
      by_cases hid : d.idToken = ""
      · simp [hok, hid]
      · by_cases hrt : d.refreshToken = ""
        · simp [hok, hid, hrt]
        · constructor
          · simp [hok, hid, hrt]
          · intro d2 hd2 _ _ _
            rw [Option.some.injEq] at hd2
            subst hd2
            simp [hok, hid, hrt]
  · have hok2 : respOk status = false := by
      cases h : respOk status
      · rfl
      · exact absurd h hok
    constructor
    · simp [hok2]
    · intro d _ hok3 _ _
      exact absurd hok3 hok

theorem login_failure_characterization_witness :
    login cfg0 (fun _ => .response 200 (some ⟨"t1", "r1", "3600", "u1", "a@b.com"⟩)) 7 =
      .ok ⟨"t1", "r1", parseIntDec "3600", "u1", "a@b.com", 7⟩ :=
  (login_failure_characterization cfg0
    (fun _ => .response 200 (some ⟨"t1", "r1", "3600", "u1", "a@b.com"⟩)) 7
    (by decide) 200 (some ⟨"t1", "r1", "3600", "u1", "a@b.com"⟩) rfl).2
    ⟨"t1", "r1", "3600", "u1", "a@b.com"⟩ rfl rfl (by decide) (by decide)

/-- C9: a login whose response carries expiresIn "3600" stores a session with
the number 3600 as expiry and issuedAt = login time; with a 300 second refresh
buffer, a request made 3650 seconds later finds 3650 > 3600 - 300, so it
triggers exactly one refresh call before attaching the bearer token - the
attached bearer is already the refreshed token - and the refresh replaces the
access token, the expiry and issuedAt. -/
theorem session_refresh_scenario (cfg : Config) (hA : 1 ≤ cfg.retryAttempts)
    (hbuf : cfg.tokenRefreshBuffer = 300)
    (loracle : Nat → LoginOutcome)
    (h0 : loracle 0 = .response 200 (some ⟨"t1", "r1", "3600", "u1", "a@b.com"⟩))
    (roracle : Nat → RefreshOutcome)
    (hr0 : roracle 0 = .response 200 (some ⟨"t2", "3600"⟩))
    (oracle : String → Nat → FetchOutcome) (ep : String) (t0 : Int) :
    ∃ tk, login cfg loracle t0 = .ok tk ∧
      tk.expiresIn = some 3600 ∧ tk.loginTime = t0 ∧
      (makeRequest cfg roracle oracle ep (t0 + 3650000) (some tk)).refreshCalls = 1 ∧
      (makeRequest cfg roracle oracle ep (t0 + 3650000) (some tk)).bearer = some "t2" ∧
      (makeRequest cfg roracle oracle ep (t0 + 3650000) (some tk)).tokens =
        some { tk with idToken := "t2", expiresIn := some 3600,
                       loginTime := t0 + 3650000 } := by
  have hrr : retryRun cfg.retryDelay cfg.retryAttempts (loginOp loracle) =
      ⟨.ok (200, some ⟨"t1", "r1", "3600", "u1", "a@b.com"⟩), 1, []⟩ :=
    retryRun_firstOk _ _ _ _ (by rw [loginOp, h0]) hA
  have hstale : tokenStale cfg (t0 + 3650000)
      ⟨"t1", "r1", some 3600, "u1", "a@b.com", t0⟩ = true := by
    simp only [tokenStale, hbuf, decide_eq_true_eq]
    omega
  have hrr2 : retryRun cfg.retryDelay cfg.retryAttempts (refreshOp roracle) =
      ⟨.ok (200, some ⟨"t2", "3600"⟩), 1, []⟩ :=
    retryRun_firstOk _ _ _ _ (by rw [refreshOp, hr0]) hA
  have hrt : refreshTokenIfNeeded cfg roracle (t0 + 3650000)
      (some ⟨"t1", "r1", some 3600, "u1", "a@b.com", t0⟩) =
      ⟨.ok ⟨"t2", "r1", some 3600, "u1", "a@b.com", t0 + 3650000⟩, 1⟩ := by
    simp only [refreshTokenIfNeeded, hstale, if_true, hrr2]
    rfl
  have hmr := makeRequest_refresh_result cfg roracle oracle ep (t0 + 3650000)
    (some ⟨"t1", "r1", some 3600, "u1", "a@b.com", t0⟩)
    ⟨"t2", "r1", some 3600, "u1", "a@b.com", t0 + 3650000⟩ 1 hrt
  refine ⟨⟨"t1", "r1", some 3600, "u1", "a@b.com", t0⟩, ?_, rfl, rfl, ?_, ?_, ?_⟩
  · rw [login, hrr]
    rfl
  · rw [hmr]
    cases makeRequestTry
      (retryRun cfg.retryDelay cfg.retryAttempts (fetchOp (oracle ep))).result <;> rfl
  · rw [hmr]
    cases makeRequestTry
      (retryRun cfg.retryDelay cfg.retryAttempts (fetchOp (oracle ep))).result <;> rfl
  · rw [hmr]
    cases makeRequestTry
      (retryRun cfg.retryDelay cfg.retryAttempts (fetchOp (oracle ep))).result <;> rfl

theorem session_refresh_scenario_witness :
    ∃ tk, login cfg0
        (fun _ => .response 200 (some ⟨"t1", "r1", "3600", "u1", "a@b.com"⟩)) 0 =
        .ok tk ∧
      tk.expiresIn = some 3600 ∧ tk.loginTime = 0 ∧
      (makeRequest cfg0 (fun _ => .response 200 (some ⟨"t2", "3600"⟩))
        (fun _ _ => .transportError "d") "/user" 3650000 (some tk)).refreshCalls = 1 ∧
      (makeRequest cfg0 (fun _ => .response 200 (some ⟨"t2", "3600"⟩))
        (fun _ _ => .transportError "d") "/user" 3650000 (some tk)).bearer = some "t2" ∧
      (makeRequest cfg0 (fun _ => .response 200 (some ⟨"t2", "3600"⟩))
        (fun _ _ => .transportError "d") "/user" 3650000 (some tk)).tokens =
        some { tk with idToken := "t2", expiresIn := some 3600,
                       loginTime := 3650000 } := by
  have h := session_refresh_scenario cfg0 (by decide) rfl
    (fun _ => .response 200 (some ⟨"t1", "r1", "3600", "u1", "a@b.com"⟩)) rfl
    (fun _ => .response 200 (some ⟨"t2", "3600"⟩)) rfl
    (fun _ _ => .transportError "d") "/user" 0
  simpa using h

theorem filterMap_skipNull {β : Type} (f : String × Jx → β) :
    ∀ (l : List (String × Jx)),
    l.filterMap (fun s => if s.2.isNull then none else some (f s)) =
      (l.filter (fun s => !s.2.isNull)).map f := by
  intro l
  induction l with
  | nil => rfl
  | cons x xs ih =>
    by_cases h : x.2.isNull
    · simp [List.filterMap_cons, List.filter_cons, h, ih]
    · simp [List.filterMap_cons, List.filter_cons, h, ih]

/-- C5 counterexample: exporting an aggregate whose inviteCode key is populated
and whose list keys are all empty writes a file for every empty-list section
(health-results.json and the rest are present though their data is the empty
list), and writes no file at all for the populated inviteCode key (the fixed
section list has no entry for it; invite-codes.json is the file of the codes
key).  Both contradict the claim that empty lists are skipped and that every
populated key gets a file. -/
theorem export_counterexample :
    u5.results = [] ∧ jsTruthy u5.inviteCode = true ∧
    (exportData u5 "ts" (some "a@b.com") "out").map Prod.fst =
      ["out/complete-function-health-data.json", "out/health-results.json",
       "out/biomarkers.json", "out/categories.json", "out/recommendations.json",
       "out/reports.json", "out/notes.json", "out/notifications.json",
       "out/cards.json", "out/invite-codes.json", "out/lab-requisitions.json",
       "out/pending-schedules.json", "out/smart-addons.json",
       "out/biomarker-details.json", "out/individual-biomarkers.json"] :=
  ⟨rfl, rfl, rfl⟩

/-- C5 amended: exportData writes the combined full-bundle file first, then one
file per entry of its fixed nineteen-entry section list - a list that has no
entry for the inviteCode key - skipping exactly the entries whose value is null
(or undefined); empty lists are not skipped; each per-key file wraps its data
in the envelope carrying the timestamp, the section name and the data. -/
theorem exportData_files (u : UserData) (ts : String) (email : Option String)
    (dir : String) :
    (exportData u ts email dir).head? =
      some (dir ++ "/complete-function-health-data.json",
            combinedExportJx u ts email) ∧
    (exportData u ts email dir).tail =
      ((exportSections u).filter (fun s => !s.2.isNull)).map
        (fun s => (dir ++ "/" ++ s.1 ++ ".json", envelopeJx ts s.1 s.2)) ∧
    "inviteCode" ∉ (exportSections u).map Prod.fst := by
  refine ⟨rfl, ?_, ?_⟩
  · rw [exportData]
    simp only [List.tail_cons]
    exact filterMap_skipNull _ _
  · simp [exportSections]

theorem fibAux_ok_spec (env : Env) (sexFilter : String) :
    ∀ (bs : List Biomarker) (tk : Option AuthTokens)
      (items : List IndividualBiomarkerData) (tk2 : Option AuthTokens)
      (reqs : List String),
    fibAux env sexFilter bs tk = .ok (items, tk2, reqs) →
    items.length = bs.length ∧
    reqs = bs.filterMap (fun b => (resolveSexDetailsId b sexFilter).map
      (fun sid => "/biomarker-data/" ++ sid)) ∧
    (∀ i (h1 : i < bs.length) (h2 : i < items.length),
      resolveSexDetailsId (bs.get ⟨i, h1⟩) sexFilter = none →
      items.get ⟨i, h2⟩ = emptyIBD (bs.get ⟨i, h1⟩) sexFilter) := by
  intro bs
  induction bs with
  | nil =>
    intro tk items tk2 reqs h
    simp only [fibAux, Except.ok.injEq, Prod.mk.injEq] at h
    obtain ⟨h1, _, h3⟩ := h
    subst h1
    subst h3
    refine ⟨rfl, rfl, ?_⟩
    intro i h1 _ _
    exact absurd h1 (by simp)
  | cons b rest ih =>
    intro tk items tk2 reqs h
    cases hres : resolveSexDetailsId b sexFilter with
    | none =>
      simp only [fibAux, hres] at h
      revert h
      cases hrec : fibAux env sexFilter rest tk with
      | error e =>
        intro h
        exact absurd h (by simp)
      | ok val =>
        obtain ⟨items2, tk3, reqs2⟩ := val
        intro h
        simp only [Except.ok.injEq, Prod.mk.injEq] at h
        obtain ⟨h1, _, h3⟩ := h
        subst h1
        subst h3
        obtain ⟨hlen, hreqs, hpos⟩ := ih tk items2 tk3 reqs2 hrec
        refine ⟨by simp [hlen], ?_, ?_⟩
        · simp only [List.filterMap_cons, hres, Option.map_none']
          exact hreqs
        · intro i hi1 hi2 hri
          cases i with
          | zero => rfl
          | succ n =>
            exact hpos n (by simp only [List.length_cons] at hi1; omega)
              (by simp only [List.length_cons] at hi2; omega) hri
    | some sid =>
      simp only [fibAux, hres] at h
      revert h
      cases hmr : (makeRequest env.cfg env.roracle env.oracle
          ("/biomarker-data/" ++ sid) env.now tk).result with
      | error e =>
        intro h
        exact absurd h (by simp)
      | ok d =>
        cases hrec : fibAux env sexFilter rest
            (makeRequest env.cfg env.roracle env.oracle
              ("/biomarker-data/" ++ sid) env.now tk).tokens with
        | error e =>
          intro h
          exact absurd h (by simp)
        | ok val =>
          obtain ⟨items2, tk3, reqs2⟩ := val
          intro h
          simp only [Except.ok.injEq, Prod.mk.injEq] at h
          obtain ⟨h1, _, h3⟩ := h
          subst h1
          subst h3
          obtain ⟨hlen, hreqs, hpos⟩ := ih _ items2 tk3 reqs2 hrec
          refine ⟨by simp [hlen], ?_, ?_⟩
          · simp only [List.filterMap_cons, hres, Option.map_some']
            rw [hreqs]
          · intro i hi1 hi2 hri
            cases i with
            | zero =>
              have hcontra : resolveSexDetailsId b sexFilter = none := hri
              rw [hres] at hcontra
              exact Option.noConfusion hcontra
            | succ n =>
              exact hpos n (by simp only [List.length_cons] at hi1; omega)
                (by simp only [List.length_cons] at hi2; omega) hri

/-- C6: in the detail-fetch phase, an exact sex match selects that variant's
identifier and a fallback "All" variant is used when no exact match exists
(resolveSexDetailsId), the requested detail endpoints are exactly the resolved
identifiers in catalog order, a biomarker resolving no identifier contributes a
placeholder record whose text fields are all the empty string (not null, not
omitted), and the output list always has exactly one record per input
biomarker. -/
theorem biomarker_detail_resolution (env : Env) (sexFilter : String) :
    (∀ b sd, b.sexDetails.find? (fun x => x.sex == sexFilter) = some sd →
      resolveSexDetailsId b sexFilter = some sd.id) ∧
    (∀ b sd, b.sexDetails.find? (fun x => x.sex == sexFilter) = none →
      b.sexDetails.find? (fun x => x.sex == "All") = some sd →
      resolveSexDetailsId b sexFilter = some sd.id) ∧
    (∀ b, b.sexDetails.find? (fun x => x.sex == sexFilter) = none →
      b.sexDetails.find? (fun x => x.sex == "All") = none →
      resolveSexDetailsId b sexFilter = none) ∧
    (∀ b s, (emptyIBD b s).id = b.id ∧ (emptyIBD b s).name = b.name ∧
      (emptyIBD b s).oneLineDescription = "" ∧ (emptyIBD b s).whyItMatters = "" ∧
      (emptyIBD b s).recommendations = "" ∧ (emptyIBD b s).resourcesCited = "" ∧
      (emptyIBD b s).fullData = none) ∧
    (∀ (bs : List Biomarker) (tk : Option AuthTokens) items tk2 reqs,
      fibAux env sexFilter bs tk = .ok (items, tk2, reqs) →
      items.length = bs.length ∧
      reqs = bs.filterMap (fun b => (resolveSexDetailsId b sexFilter).map
        (fun sid => "/biomarker-data/" ++ sid)) ∧
      (∀ i (h1 : i < bs.length) (h2 : i < items.length),
        resolveSexDetailsId (bs.get ⟨i, h1⟩) sexFilter = none →
        items.get ⟨i, h2⟩ = emptyIBD (bs.get ⟨i, h1⟩) sexFilter)) := by
  refine ⟨?_, ?_, ?_, ?_, fibAux_ok_spec env sexFilter⟩
  · intro b sd h
    rw [resolveSexDetailsId, h]
  · intro b sd h1 h2
    rw [resolveSexDetailsId, h1, h2]
  · intro b h1 h2
    rw [resolveSexDetailsId, h1, h2]
  · intro b s
    exact ⟨rfl, rfl, rfl, rfl, rfl, rfl, rfl⟩

theorem biomarker_detail_resolution_witness :
    ([emptyIBD bW1 "Male", emptyIBD bW2 "Male",
      emptyIBD bW3 "Male"].length = [bW1, bW2, bW3].length) ∧
    ["/biomarker-data/m1", "/biomarker-data/a2"] =
      [bW1, bW2, bW3].filterMap (fun b => (resolveSexDetailsId b "Male").map
        (fun sid => "/biomarker-data/" ++ sid)) := by
  have h := (biomarker_detail_resolution envW "Male").2.2.2.2
    [bW1, bW2, bW3] (some tok0) _ _ _ rfl
  exact ⟨h.1, h.2.1⟩

end FunctionHealth
